import Mathlib

/-!
Verification of the CereFlow facility discovery and ranking pipeline.

The definitions below are shallow embeddings of the JavaScript source of the
cereflow-backend repository.  Strings are modelled as lists of characters,
JavaScript numbers as rationals (reals for the trigonometric distance
function), and absent/undefined values as `Option`.  Each embedded function
names the source function it models and the file it was taken from; the
search route exists in several near-verbatim copies in the repository, and
where the copies differ the embedded definition records which copy it
follows.
-/

namespace CereFlow

/-- Characters of a JavaScript string. -/
abbrev JStr := List Char

/-- Model of `String.prototype.toLowerCase` restricted to ASCII, which covers
every keyword the source compares against. -/
def jsLower (s : JStr) : JStr := s.map Char.toLower

/-- Model of `Array.prototype.join(' ')` used to flatten the `types` tags. -/
def joinSpace : List JStr → JStr
  | [] => []
  | [t] => t
  | t :: ts => t ++ (' ' :: joinSpace ts)

/-- Helper for `incl`: does `s` start with `pat`? -/
def startsWith : JStr → JStr → Bool
  | [], _ => true
  | _ :: _, [] => false
  | a :: as, b :: bs => a == b && startsWith as bs

/-- Model of `String.prototype.includes`: `incl pat s` is true when `pat`
occurs contiguously inside `s`. -/
def incl (pat : JStr) : JStr → Bool
  | [] => startsWith pat []
  | s@(_ :: rest) => startsWith pat s || incl pat rest

theorem startsWith_iff (pat s : JStr) : startsWith pat s = true ↔ pat <+: s := by
  induction pat generalizing s with
  | nil => simp [startsWith, List.nil_prefix]
  | cons a as ih =>
    cases s with
    | nil => simp [startsWith]
    | cons b bs =>
      simp only [startsWith, Bool.and_eq_true, beq_iff_eq, ih, List.cons_prefix_cons]

theorem incl_iff (pat s : JStr) : incl pat s = true ↔ pat <:+: s := by
  induction s with
  | nil =>
    simp [incl, startsWith_iff, List.prefix_nil, List.infix_nil]
  | cons b bs ih =>
    simp only [incl, Bool.or_eq_true, startsWith_iff, ih]
    constructor
    · rintro (h | h)
      · exact h.isInfix
      · rcases h with ⟨pre, post, hps⟩
        exact ⟨b :: pre, post, by simp [hps]⟩
    · intro h
      rcases h with ⟨pre, post, hps⟩
      cases pre with
      | nil => left; exact ⟨post, by simpa using hps⟩
      | cons c cs =>
        right
        exact ⟨cs, post, by simpa using congrArg List.tail hps⟩

/-- Monotonicity of substring search: if `p` occurs inside `q` and `q`
occurs inside `s`, then `p` occurs inside `s`. -/
theorem incl_of_incl_incl {p q s : JStr} (hpq : incl p q = true)
    (hqs : incl q s = true) : incl p s = true := by
  rw [incl_iff] at *
  exact hpq.trans hqs

/-! Keyword literals compared against by the source. -/

def kwPet : JStr := "pet".toList

def kwVeterinary : JStr := "veterinary".toList

def kwAnimal : JStr := "animal".toList

def kwVetSpace : JStr := "vet ".toList

def kwHospital : JStr := "hospital".toList

def kwEmergencyWord : JStr := "emergency".toList

def kwMedicalCenter : JStr := "medical center".toList

def kwTrauma : JStr := "trauma".toList

def kwStrokeCenter : JStr := "stroke center".toList

def kwUrgentCare : JStr := "urgent care".toList

def kwRehabilitation : JStr := "rehabilitation".toList

def kwRehab : JStr := "rehab".toList

def kwRecovery : JStr := "recovery".toList

def kwTherapy : JStr := "therapy".toList

def kwPhysicalTherapy : JStr := "physical therapy".toList

def kwSpeech : JStr := "speech".toList

def kwOccupational : JStr := "occupational".toList

def kwPhysiotherapist : JStr := "physiotherapist".toList

def kwLanguage : JStr := "language".toList

def kwCommunication : JStr := "communication".toList

def kwPhysiotherapy : JStr := "physiotherapy".toList

def kwPhysicalRehab : JStr := "physical rehab".toList

def kwOccupationalTherapy : JStr := "occupational therapy".toList

def kwSupport : JStr := "support".toList

def kwCommunity : JStr := "community".toList

def kwGroup : JStr := "group".toList

def kwCenter : JStr := "center".toList

def kwAssociation : JStr := "association".toList

def kwCommunityCenter : JStr := "community_center".toList

def kwStroke : JStr := "stroke".toList

def kwUrgent : JStr := "urgent".toList

def kwEye : JStr := "eye".toList

def kwDental : JStr := "dental".toList

def kwSkin : JStr := "skin".toList

def kwEnt : JStr := "ent".toList

def kwDermat : JStr := "dermat".toList

def kwOphthalm : JStr := "ophthalm".toList

def kwClinic : JStr := "clinic".toList

def kwHeart : JStr := "heart".toList

def kwNeuro : JStr := "neuro".toList

/-! Data model: a candidate place as returned by the place-search provider,
with the optional `distance` record the pipeline attaches. -/

/-- Need types accepted by the search route. -/
inductive NeedType
  | emergency
  | rehabilitation
  | speechTherapy
  | physicalTherapy
  | occupationalTherapy
  | supportGroups
deriving DecidableEq, Repr

/-- Distance record `{km, miles}` attached to a candidate. -/
structure DistInfo where
  km : ℚ
  miles : ℚ
deriving DecidableEq, Repr

/-- Candidate facility record from the place-search provider.  Fields the
provider may omit are `Option`; `location`, `businessStatus` and the
generated direction URLs do not influence any verified property and are
not modelled. -/
structure Facility where
  displayName : Option JStr
  formattedAddress : Option JStr
  internationalPhoneNumber : Option JStr
  websiteUri : Option JStr
  rating : Option ℚ
  userRatingCount : Option ℕ
  types : List JStr
  distance : Option DistInfo
deriving DecidableEq, Repr

/-- Lowercased display name as computed throughout the source:
`facility.displayName?.text?.toLowerCase() || ''`. -/
def facilityName (f : Facility) : JStr := jsLower (f.displayName.getD [])

/-- Lowercased joined category tags: `(facility.types || []).join(' ').toLowerCase()`. -/
def facilityTypesStr (f : Facility) : JStr := jsLower (joinSpace f.types)

/-! Deduplication, from `getRealFacilities` (src/server.js lines 398-408 and the
identical loops in unnamed/part_000 and unnamed/part_001):
`const placeId = `\x7b...\x7d`; if (!seenPlaces.has(placeId)) ...` -/

def strUndefined : JStr := "undefined".toList

/-- Dedupe key: the template literal `${facility.displayName?.text}-${facility.formattedAddress}`.
A missing field stringifies to `undefined`, exactly as in JavaScript. -/
def placeKey (f : Facility) : JStr :=
  (f.displayName.getD strUndefined) ++ ('-' :: (f.formattedAddress.getD strUndefined))

/-- The dedupe loop with its `seenPlaces` set modelled as the list of keys
inserted so far. -/
def removeDuplicatesAux (seen : List JStr) : List Facility → List Facility
  | [] => []
  | f :: fs =>
    if placeKey f ∈ seen then removeDuplicatesAux seen fs
    else f :: removeDuplicatesAux (placeKey f :: seen) fs

/-- Deduplication of the collected candidate list. -/
def removeDuplicates (l : List Facility) : List Facility := removeDuplicatesAux [] l

/-! Relevance filter `filterFacilitiesByServiceType` (identical in
src/server.js lines 174-286, unnamed/part_000 lines 719-831 and
unnamed/part_001 lines 145-257). -/

/-- The predicate of the `facilities.filter(...)` callback, with the source's
sequential `if (...) return` chain rendered as nested conditionals. -/
def keepFacility (needTypes : List NeedType) (facility : Facility) : Bool :=
  let name := facilityName facility
  let typesStr := facilityTypesStr facility
  if incl kwPet name || incl kwVeterinary name || incl kwAnimal name ||
      incl kwVeterinary typesStr || incl kwVetSpace name then
    false
  else if needTypes.contains NeedType.emergency &&
      (incl kwHospital name || incl kwEmergencyWord name || incl kwMedicalCenter name ||
       incl kwTrauma name || incl kwStrokeCenter name || incl kwHospital typesStr ||
       incl kwEmergencyWord typesStr || incl kwUrgentCare name) then
    true
  else if needTypes.contains NeedType.rehabilitation &&
      (incl kwRehabilitation name || incl kwRehab name || incl kwRecovery name ||
       incl kwTherapy name || incl kwPhysicalTherapy name || incl kwSpeech name ||
       incl kwOccupational name || incl kwPhysiotherapist typesStr ||
       incl kwRehabilitation typesStr) then
    true
  else if needTypes.contains NeedType.speechTherapy &&
      (incl kwSpeech name || incl kwLanguage name || incl kwCommunication name ||
       incl kwSpeech typesStr) then
    true
  else if needTypes.contains NeedType.physicalTherapy &&
      (incl kwPhysicalTherapy name || incl kwPhysiotherapy name ||
       incl kwPhysicalRehab name || incl kwPhysiotherapist typesStr) then
    true
  else if needTypes.contains NeedType.occupationalTherapy &&
      (incl kwOccupational name || incl kwOccupationalTherapy name ||
       incl kwOccupational typesStr) then
    true
  else if needTypes.contains NeedType.supportGroups &&
      (incl kwSupport name || incl kwCommunity name || incl kwGroup name ||
       incl kwCenter name || incl kwAssociation name ||
       incl kwCommunityCenter typesStr) then
    true
  else if incl kwHospital name || incl kwMedicalCenter name || incl kwHospital typesStr then
    true
  else
    false

/-- Relevance filter over a candidate list. -/
def filterFacilitiesByServiceType (facilities : List Facility)
    (needTypes : List NeedType) : List Facility :=
  facilities.filter (keepFacility needTypes)

/-! Composite scoring and sorting of `getRealFacilities`
(unnamed/part_000 lines 993-1042; the stale copy in src/server.js lines
448-487 omits the eye/dental/skin/ent guard on the hospital bonus). -/

/-- Emergency priority score of a lowercased name, from the comparator body in
unnamed/part_000: stroke +10, hospital/medical-center (minus urgent and the
single-specialty substrings) +8, emergency-not-urgent +6, trauma +7,
urgent +3. -/
def emergencyScore (name : JStr) : ℤ :=
  (if incl kwStroke name then 10 else 0) +
  (if (incl kwHospital name || incl kwMedicalCenter name) && !incl kwUrgent name &&
      !incl kwEye name && !incl kwDental name && !incl kwSkin name && !incl kwEnt name
    then 8 else 0) +
  (if incl kwEmergencyWord name && !incl kwUrgent name then 6 else 0) +
  (if incl kwTrauma name then 7 else 0) +
  (if incl kwUrgent name then 3 else 0)

/-- Emergency priority score exactly as the specification words it: the same
contributions, with no separate `urgent` exclusion on the hospital bonus. -/
def specEmergencyScore (name : JStr) : ℤ :=
  (if incl kwStroke name then 10 else 0) +
  (if (incl kwHospital name || incl kwMedicalCenter name) &&
      !(incl kwEye name || incl kwDental name || incl kwSkin name || incl kwEnt name)
    then 8 else 0) +
  (if incl kwTrauma name then 7 else 0) +
  (if incl kwEmergencyWord name && !incl kwUrgent name then 6 else 0) +
  (if incl kwUrgent name then 3 else 0)

/-- The comparator passed to `facilitiesWithDetails.sort((a, b) => ...)`:
score difference under the emergency need type when the scores differ,
otherwise the miles difference when both candidates carry distance data,
otherwise `0`. -/
def facilityCmp (needTypes : List NeedType) (a b : Facility) : ℚ :=
  if needTypes.contains NeedType.emergency = true ∧
      emergencyScore (facilityName a) ≠ emergencyScore (facilityName b) then
    ((emergencyScore (facilityName b) : ℚ)) - ((emergencyScore (facilityName a) : ℚ))
  else
    match a.distance, b.distance with
    | some da, some db => da.miles - db.miles
    | _, _ => 0

/-- The sign of the comparator, as consumed by `Array.prototype.sort`:
`facilityLeB needTypes a b = true` exactly when
`facilityCmp needTypes a b ≤ 0` (see `facilityLeB_iff`). -/
def facilityLeB (needTypes : List NeedType) (a b : Facility) : Bool :=
  if needTypes.contains NeedType.emergency = true ∧
      emergencyScore (facilityName a) ≠ emergencyScore (facilityName b) then
    decide (emergencyScore (facilityName b) ≤ emergencyScore (facilityName a))
  else
    match a.distance, b.distance with
    | some da, some db => decide (da.miles ≤ db.miles)
    | _, _ => true

/-- The sign relation agrees with the literal comparator: an element is kept
(weakly) before another exactly when the comparator is nonpositive. -/
theorem facilityLeB_iff (needTypes : List NeedType) (a b : Facility) :
    facilityLeB needTypes a b = true ↔ facilityCmp needTypes a b ≤ 0 := by
  unfold facilityLeB facilityCmp
  by_cases h : needTypes.contains NeedType.emergency = true ∧
      emergencyScore (facilityName a) ≠ emergencyScore (facilityName b)
  · simp only [if_pos h, decide_eq_true_eq, sub_nonpos, Int.cast_le]
  · simp only [if_neg h]
    cases a.distance with
    | none => simp
    | some da =>
      cases b.distance with
      | none => simp
      | some db => simp [sub_nonpos]

/-- The sort stage, modelling the JavaScript stable `Array.prototype.sort`
as a stable insertion sort on the comparator's nonpositive-sign relation. -/
def sortFacilities (needTypes : List NeedType) (l : List Facility) : List Facility :=
  List.insertionSort (fun a b => facilityLeB needTypes a b = true) l

/-- Radius for the final cutoff: `needTypes.includes('support-groups') ? 50 : 31`. -/
def maxDistance (needTypes : List NeedType) : ℚ :=
  if needTypes.contains NeedType.supportGroups then 50 else 31

/-- The final cutoff filter of `getRealFacilities`: a candidate with a truthy
`distance.miles` must satisfy `miles <= maxDistance`; any other candidate
(no distance record, or `miles` equal to the falsy `0`) is kept. -/
def radiusCutoff (needTypes : List NeedType) (l : List Facility) : List Facility :=
  l.filter fun facility =>
    match facility.distance with
    | some d => if d.miles = 0 then true else decide (d.miles ≤ maxDistance needTypes)
    | none => true

/-- Composition of the sort stage and the radius cutoff: the tail of
`getRealFacilities` applied to the filtered, distance-annotated candidates. -/
def finalResults (needTypes : List NeedType) (l : List Facility) : List Facility :=
  radiusCutoff needTypes (sortFacilities needTypes l)

/-! Generic facts about the stable insertion sort used to model
`Array.prototype.sort`.  The comparators in the source are not transitive
(a candidate without distance data compares equal to everything), so only
adjacent output pairs are related; these lemmas capture exactly that. -/

section SortLemmas

variable {α : Type} (r : α → α → Prop) [DecidableRel r]

theorem head?_orderedInsert (x : α) (l : List α) :
    (List.orderedInsert r x l).head? = some x ∨
      (List.orderedInsert r x l).head? = l.head? := by
  cases l with
  | nil => left; rfl
  | cons y ys =>
    by_cases h : r x y
    · left; simp [List.orderedInsert, h]
    · right; simp [List.orderedInsert, h]

theorem chain_orderedInsert (htot : ∀ a b, r a b ∨ r b a) (x : α) :
    ∀ l : List α, l.Chain' r → (List.orderedInsert r x l).Chain' r := by
  intro l
  induction l with
  | nil => intro _; simp [List.orderedInsert]
  | cons y ys ih =>
    intro h
    rw [List.orderedInsert]
    by_cases hxy : r x y
    · rw [if_pos hxy]
      exact List.chain'_cons.mpr ⟨hxy, h⟩
    · rw [if_neg hxy]
      have hyx : r y x := (htot x y).resolve_left hxy
      have hy := List.chain'_cons'.mp h
      refine List.chain'_cons'.mpr ⟨?_, ih hy.2⟩
      intro z hz
      rcases head?_orderedInsert r x ys with hh | hh
      · rw [hh] at hz
        cases hz
        exact hyx
      · rw [hh] at hz
        exact hy.1 z hz

theorem chain_insertionSort (htot : ∀ a b, r a b ∨ r b a) (l : List α) :
    (List.insertionSort r l).Chain' r := by
  induction l with
  | nil => simp [List.insertionSort]
  | cons x xs ih =>
    rw [List.insertionSort]
    exact chain_orderedInsert r htot x _ ih

theorem insertionSort_eq_of_chain : ∀ l : List α, l.Chain' r →
    List.insertionSort r l = l := by
  intro l
  induction l with
  | nil => intro _; rfl
  | cons x xs ih =>
    intro h
    rw [List.insertionSort, ih h.tail]
    cases xs with
    | nil => rfl
    | cons y ys =>
      have hxy : r x y := (List.chain'_cons.mp h).1
      simp [List.orderedInsert, hxy]

theorem insertionSort_idem (htot : ∀ a b, r a b ∨ r b a) (l : List α) :
    List.insertionSort r (List.insertionSort r l) = List.insertionSort r l :=
  insertionSort_eq_of_chain r _ (chain_insertionSort r htot l)

end SortLemmas

section ChainLemmas

variable {α : Type} (r : α → α → Prop)

theorem rel_head_of_chain {S : α → α → Prop} (hsub : ∀ a b, r a b → S a b)
    (htr : ∀ a b c, S a b → S b c → S a c) :
    ∀ (xs : List α) (x : α), (x :: xs).Chain' r → ∀ y ∈ xs, S x y := by
  intro xs
  induction xs with
  | nil => intro x _ y hy; cases hy
  | cons z zs ih =>
    intro x h y hy
    have hxz : r x z := (List.chain'_cons.mp h).1
    have hz : (z :: zs).Chain' r := (List.chain'_cons.mp h).2
    rcases List.mem_cons.mp hy with rfl | hy'
    · exact hsub _ _ hxz
    · exact htr _ _ _ (hsub _ _ hxz) (ih z hz y hy')

theorem pairwise_of_chain {S : α → α → Prop} (hsub : ∀ a b, r a b → S a b)
    (htr : ∀ a b c, S a b → S b c → S a c) :
    ∀ l : List α, l.Chain' r → l.Pairwise S := by
  intro l
  induction l with
  | nil => intro _; exact List.Pairwise.nil
  | cons x xs ih =>
    intro h
    exact List.pairwise_cons.mpr
      ⟨rel_head_of_chain r hsub htr xs x h, ih h.tail⟩

end ChainLemmas

/-! Enrichment layer, from `enhanceWithChatGPT` in unnamed/part_000
(lines 1068-1417).  The generative call either produces a parsed analysis
object or — on any error, including malformed output rejected by
`JSON.parse` — leaves `aiAnalysis` null; both outcomes are modelled by
`Option AIAnalysis`.  The older copies of the route (src/server.js
`search copy.js` and unnamed/part_001) lack the service-specific manual
overrides; the embedding follows unnamed/part_000. -/

/-- Per-facility insight record in the shape the generative service is asked
to return and the fallback constructs. -/
structure Insights where
  medical_relevance : JStr
  language_support : JStr
  language_note : JStr
  service_match : JStr
  specialty_note : JStr
  facility_type : JStr
deriving DecidableEq, Repr

/-- The `patterns` section of a parsed generative response.  A missing or
empty (falsy) field is `none`. -/
structure Patterns where
  hospital_language_support : Option JStr
  urgent_care_language_support : Option JStr
  clinic_language_support : Option JStr
  general_language_note : Option JStr
deriving DecidableEq, Repr

/-- A parsed generative response: optional per-facility list and optional
patterns section. -/
structure AIAnalysis where
  facilities : Option (List Insights)
  patterns : Option Patterns
deriving DecidableEq, Repr

/-- The guarded access `aiAnalysis && aiAnalysis.facilities && aiAnalysis.facilities[index]`. -/
def aiFacilityEntry (ai : Option AIAnalysis) (index : ℕ) : Option Insights :=
  match ai with
  | none => none
  | some analysis =>
    match analysis.facilities with
    | none => none
    | some fl => fl.get? index

/-- The guarded access `aiAnalysis && aiAnalysis.patterns`. -/
def aiPatternsOf (ai : Option AIAnalysis) : Option Patterns :=
  match ai with
  | none => none
  | some analysis => analysis.patterns

/-! Text literals produced by the enrichment code. -/

def txtLow : JStr := "Low".toList

def txtMedium : JStr := "Medium".toList

def txtHigh : JStr := "High".toList

def txtUnknown : JStr := "Unknown".toList

def txtConfirmed : JStr := "Confirmed".toList

def txtGood : JStr := "Good".toList

def txtFair : JStr := "Fair".toList

def txtPoor : JStr := "Poor".toList

def txtExcellent : JStr := "Excellent".toList

def txtNotAssessed : JStr := "Language support not assessed".toList

def txtMedicalFacility : JStr := "Medical facility".toList

def txtSpecialtyEmergencyNote : JStr := "Specialty hospital - not equipped for stroke emergencies".toList

def txtSpecialtyRehabNote : JStr := "Specialty hospital - not relevant for stroke rehabilitation".toList

def txtSpecialtySupportNote : JStr := "Specialty hospital - not relevant for stroke support services".toList

def txtStrokeTraumaNote : JStr := "Specialized for stroke/trauma care".toList

def txtHospitalEDNote : JStr := "Hospital with emergency department".toList

def txtUrgentCareNote : JStr := "Urgent care facility, not specialized for stroke emergencies".toList

def txtSpeechSvcNote : JStr := "Specialized speech therapy services".toList

def txtPhysicalSvcNote : JStr := "Specialized physical therapy services".toList

def txtOccupationalSvcNote : JStr := "Specialized occupational therapy services".toList

def txtRehabSvcNote : JStr := "Specialized rehabilitation services".toList

def txtHospitalRehabNote : JStr := "Hospital with rehabilitation services".toList

def txtEnPrimary : JStr := "English is the primary language spoken".toList

def ftHospital : JStr := "hospital".toList

def ftUrgentCare : JStr := "urgent_care".toList

def ftClinic : JStr := "clinic".toList

def ftSpecialtyCenter : JStr := "specialty_center".toList

def ftOther : JStr := "other".toList

def ftSpecialtyHospital : JStr := "specialty_hospital".toList

def ctxEn : JStr := "en".toList

/-- Classification `getFacilityType` used for pattern matching. -/
def getFacilityType (facility : Facility) : JStr :=
  let name := facilityName facility
  let typesStr := facilityTypesStr facility
  if incl kwHospital name || incl kwHospital typesStr then ftHospital
  else if incl kwUrgentCare name || incl kwUrgent name then ftUrgentCare
  else if incl kwClinic name || incl kwClinic typesStr then ftClinic
  else if incl kwCenter name && (incl kwStroke name || incl kwHeart name || incl kwNeuro name)
    then ftSpecialtyCenter
  else ftOther

/-- The service-specific emergency override condition of `applyAIInsights`. -/
def emergencyOverride (needTypes : List NeedType) (name : JStr) : Bool :=
  needTypes.contains NeedType.emergency &&
    (incl kwEye name || incl kwDental name || incl kwSkin name ||
     incl kwEnt name || incl kwDermat name || incl kwOphthalm name)

/-- The rehabilitation/therapy override condition of `applyAIInsights`. -/
def rehabOverride (needTypes : List NeedType) (name : JStr) : Bool :=
  (needTypes.contains NeedType.rehabilitation || needTypes.contains NeedType.speechTherapy ||
   needTypes.contains NeedType.physicalTherapy || needTypes.contains NeedType.occupationalTherapy) &&
    (incl kwEye name || incl kwDental name)

/-- The support-groups override condition of `applyAIInsights`. -/
def supportOverride (needTypes : List NeedType) (name : JStr) : Bool :=
  needTypes.contains NeedType.supportGroups &&
    (incl kwEye name || incl kwDental name || incl kwSkin name)

/-- The pattern-plus-rule fallback tail of `applyAIInsights`, a direct
rendering of the mutation sequence on the local `insights` object.  It
consumes the generative `patterns` section when one is present. -/
def buildPatternInsights (needTypes : List NeedType) (languageContext : JStr)
    (patterns : Option Patterns) (facility : Facility) : Insights :=
  let name := facilityName facility
  let facilityType := getFacilityType facility
  let ls0 := txtUnknown
  let ln0 := txtNotAssessed
  let mr0 := txtMedium
  let sm0 := txtGood
  let sn0 := txtMedicalFacility
  let ls1 :=
    match patterns with
    | none => ls0
    | some p =>
      if facilityType = ftHospital ∧ p.hospital_language_support ≠ none then
        p.hospital_language_support.getD ls0
      else if facilityType = ftUrgentCare ∧ p.urgent_care_language_support ≠ none then
        p.urgent_care_language_support.getD ls0
      else if facilityType = ftClinic ∧ p.clinic_language_support ≠ none then
        p.clinic_language_support.getD ls0
      else ls0
  let ln1 :=
    match patterns with
    | none => ln0
    | some p => p.general_language_note.getD ln0
  let emergencyStep :=
    if needTypes.contains NeedType.emergency = true then
      if incl kwStroke name || incl kwTrauma name then
        (txtHigh, txtStrokeTraumaNote, txtExcellent)
      else if facilityType = ftHospital ∧ incl kwEye name = false ∧
          incl kwDental name = false ∧ incl kwSkin name = false then
        (txtHigh, txtHospitalEDNote, txtExcellent)
      else if facilityType = ftUrgentCare then
        (txtMedium, txtUrgentCareNote, txtFair)
      else (mr0, sn0, sm0)
    else (mr0, sn0, sm0)
  let mr1 := emergencyStep.1
  let sn1 := emergencyStep.2.1
  let sm1 := emergencyStep.2.2
  let therapyRequested :=
    needTypes.contains NeedType.rehabilitation || needTypes.contains NeedType.speechTherapy ||
    needTypes.contains NeedType.physicalTherapy || needTypes.contains NeedType.occupationalTherapy
  let step1 :=
    if therapyRequested && (incl kwSpeech name && needTypes.contains NeedType.speechTherapy) then
      (txtHigh, txtSpeechSvcNote, txtExcellent)
    else (mr1, sn1, sm1)
  let step2 :=
    if therapyRequested && ((incl kwPhysicalTherapy name || incl kwPhysiotherapy name) &&
        needTypes.contains NeedType.physicalTherapy) then
      (txtHigh, txtPhysicalSvcNote, txtExcellent)
    else step1
  let step3 :=
    if therapyRequested && (incl kwOccupational name && needTypes.contains NeedType.occupationalTherapy) then
      (txtHigh, txtOccupationalSvcNote, txtExcellent)
    else step2
  let step4 :=
    if therapyRequested && ((incl kwRehabilitation name || incl kwRehab name) &&
        needTypes.contains NeedType.rehabilitation) then
      (txtHigh, txtRehabSvcNote, txtExcellent)
    else step3
  let step5 :=
    if therapyRequested &&
        (decide (facilityType = ftHospital) && !incl kwEye name && !incl kwDental name) then
      (txtHigh, txtHospitalRehabNote, txtGood)
    else step4
  let langStep :=
    if ls1 = txtUnknown ∧ languageContext = ctxEn then (txtConfirmed, txtEnPrimary)
    else (ls1, ln1)
  { medical_relevance := step5.1
    language_support := langStep.1
    language_note := langStep.2
    service_match := step5.2.2
    specialty_note := step5.2.1
    facility_type := facilityType }

/-- The function `applyAIInsights(facility, index)` of unnamed/part_000:
service-specific manual overrides first, then the direct per-facility
generative result when one exists, otherwise the pattern/rule fallback. -/
def applyAIInsights (needTypes : List NeedType) (languageContext : JStr)
    (ai : Option AIAnalysis) (facility : Facility) (index : ℕ) : Insights :=
  let name := facilityName facility
  if emergencyOverride needTypes name then
    { medical_relevance := txtLow
      language_support := txtUnknown
      language_note := txtNotAssessed
      service_match := txtPoor
      specialty_note := txtSpecialtyEmergencyNote
      facility_type := ftSpecialtyHospital }
  else if rehabOverride needTypes name then
    { medical_relevance := txtLow
      language_support := txtUnknown
      language_note := txtNotAssessed
      service_match := txtPoor
      specialty_note := txtSpecialtyRehabNote
      facility_type := ftSpecialtyHospital }
  else if supportOverride needTypes name then
    { medical_relevance := txtLow
      language_support := txtUnknown
      language_note := txtNotAssessed
      service_match := txtPoor
      specialty_note := txtSpecialtySupportNote
      facility_type := ftSpecialtyHospital }
  else
    match aiFacilityEntry ai index with
    | some entry => entry
    | none => buildPatternInsights needTypes languageContext (aiPatternsOf ai) facility

/-! The enriched record assembled for every facility in the response. -/

def txtUnknownName : JStr := "Unknown".toList

def txtAddrNA : JStr := "Address not available".toList

def txtNotAvailable : JStr := "Not available".toList

def svcEmergency : List JStr := ["Emergency care".toList, "Stroke treatment".toList]

def svcRehab : List JStr := ["Rehabilitation services".toList, "Therapy programs".toList]

def svcSpeech : List JStr := ["Speech therapy".toList, "Language therapy".toList]

def svcPhysical : List JStr := ["Physical therapy".toList, "Motor rehabilitation".toList]

def svcOccupational : List JStr := ["Occupational therapy".toList, "Daily living skills".toList]

def svcDefault : List JStr := ["Medical services".toList]

/-- The `likely_services` conditional chain. -/
def likelyServices (needTypes : List NeedType) : List JStr :=
  if needTypes.contains NeedType.emergency then svcEmergency
  else if needTypes.contains NeedType.rehabilitation then svcRehab
  else if needTypes.contains NeedType.speechTherapy then svcSpeech
  else if needTypes.contains NeedType.physicalTherapy then svcPhysical
  else if needTypes.contains NeedType.occupationalTherapy then svcOccupational
  else svcDefault

/-- A facility as returned in the enriched response. -/
structure EnrichedFacility where
  name : JStr
  address : JStr
  phone : JStr
  website : JStr
  rating : Option ℚ
  userRatingCount : ℕ
  distance : Option DistInfo
  types : List JStr
  medical_relevance : JStr
  language_support : JStr
  language_note : JStr
  service_match : JStr
  specialty_note : JStr
  facility_type : JStr
  likely_services : List JStr
deriving DecidableEq, Repr

/-- Assembly of one enriched record: base provider fields with defaults,
the spread `...aiInsights`, and `likely_services`. -/
def enrichOne (needTypes : List NeedType) (languageContext : JStr)
    (ai : Option AIAnalysis) (index : ℕ) (facility : Facility) : EnrichedFacility :=
  let insights := applyAIInsights needTypes languageContext ai facility index
  { name := facility.displayName.getD txtUnknownName
    address := facility.formattedAddress.getD txtAddrNA
    phone := facility.internationalPhoneNumber.getD txtNotAvailable
    website := facility.websiteUri.getD txtNotAvailable
    rating := facility.rating
    userRatingCount := facility.userRatingCount.getD 0
    distance := facility.distance
    types := facility.types
    medical_relevance := insights.medical_relevance
    language_support := insights.language_support
    language_note := insights.language_note
    service_match := insights.service_match
    specialty_note := insights.specialty_note
    facility_type := insights.facility_type
    likely_services := likelyServices needTypes }

/-- The map `realFacilities.map((facility, index) => ...)` producing the
enriched response list. -/
def enhanceFacilities (needTypes : List NeedType) (languageContext : JStr)
    (ai : Option AIAnalysis) (realFacilities : List Facility) : List EnrichedFacility :=
  realFacilities.enum.map fun p => enrichOne needTypes languageContext ai p.1 p.2

/-! The secondary sort endpoint `router.post('/search/sort')`
(unnamed/part_000 lines 1420-1466, identical in unnamed/part_001). -/

def sortKeyDistance : JStr := "distance".toList

def sortKeyRelevance : JStr := "relevance".toList

/-- Numeric comparator for `sortBy === 'distance'`. -/
def distanceCmp (a b : EnrichedFacility) : ℚ :=
  match a.distance, b.distance with
  | some da, some db => da.miles - db.miles
  | _, _ => 0

/-- Sign of `distanceCmp` (see `distanceLeB_iff`). -/
def distanceLeB (a b : EnrichedFacility) : Bool :=
  match a.distance, b.distance with
  | some da, some db => decide (da.miles ≤ db.miles)
  | _, _ => true

theorem distanceLeB_iff (a b : EnrichedFacility) :
    distanceLeB a b = true ↔ distanceCmp a b ≤ 0 := by
  unfold distanceLeB distanceCmp
  cases a.distance with
  | none => simp
  | some da =>
    cases b.distance with
    | none => simp
    | some db => simp [sub_nonpos]

/-- The lookup `relevanceScore[x] || 1` of the relevance comparator. -/
def relevanceScoreOf (mr : JStr) : ℤ :=
  if mr = txtHigh then 3 else if mr = txtMedium then 2 else if mr = txtLow then 1 else 1

/-- Sign of the `sortBy === 'relevance'` comparator: descending relevance
score, then ascending distance when both are known. -/
def relevanceLeB (a b : EnrichedFacility) : Bool :=
  if relevanceScoreOf a.medical_relevance ≠ relevanceScoreOf b.medical_relevance then
    decide (relevanceScoreOf b.medical_relevance ≤ relevanceScoreOf a.medical_relevance)
  else distanceLeB a b

/-- The endpoint body: copy the posted list and sort it by the requested key;
an unrecognised key leaves the list untouched. -/
def sortSearchResults (sortBy : JStr) (facilities : List EnrichedFacility) :
    List EnrichedFacility :=
  if sortBy = sortKeyDistance then
    List.insertionSort (fun a b => distanceLeB a b = true) facilities
  else if sortBy = sortKeyRelevance then
    List.insertionSort (fun a b => relevanceLeB a b = true) facilities
  else facilities

/-! Distance engine `calculateDistance` (the Haversine formula, identical in
src/server.js lines 40-57, unnamed/part_000, part_001 and part_002 lines
11-28).  JavaScript floating point is modelled over the reals; `Math.atan2`
and `Math.round` are modelled by `jsAtan2` and `jsRound`. -/

/-- Conversion `degrees * (Math.PI / 180)`. -/
noncomputable def toRadians (degrees : ℝ) : ℝ := degrees * (Real.pi / 180)

/-- Model of `Math.atan2 y x` on the reals (signed zeros collapse to `0`). -/
noncomputable def jsAtan2 (y x : ℝ) : ℝ :=
  if 0 < x then Real.arctan (y / x)
  else if x < 0 ∧ 0 ≤ y then Real.arctan (y / x) + Real.pi
  else if x < 0 ∧ y < 0 then Real.arctan (y / x) - Real.pi
  else if x = 0 ∧ 0 < y then Real.pi / 2
  else if x = 0 ∧ y < 0 then -(Real.pi / 2)
  else 0

/-- Model of `Math.round`: round half up, as an integer-valued real. -/
noncomputable def jsRound (x : ℝ) : ℝ := (⌊x + 1 / 2⌋ : ℤ)

/-- Unit argument of `calculateDistance`. -/
inductive DistUnit
  | km
  | miles
deriving DecidableEq, Repr

/-- The function `calculateDistance(lat1, lon1, lat2, lon2, unit)`. -/
noncomputable def calculateDistance (lat1 lon1 lat2 lon2 : ℝ) (unit : DistUnit) : ℝ :=
  let bigR : ℝ := if unit = DistUnit.miles then 3959 else 6371
  let dLat := toRadians (lat2 - lat1)
  let dLon := toRadians (lon2 - lon1)
  let a := Real.sin (dLat / 2) * Real.sin (dLat / 2) +
    Real.cos (toRadians lat1) * Real.cos (toRadians lat2) *
    Real.sin (dLon / 2) * Real.sin (dLon / 2)
  let c := 2 * jsAtan2 (Real.sqrt a) (Real.sqrt (1 - a))
  let distance := bigR * c
  jsRound (distance * 10) / 10

/-! Concrete facility records used to exercise the theorems below. -/

/-- A general hospital candidate with no distance data. -/
def facCity : Facility :=
  { displayName := some ("City Hospital".toList)
    formattedAddress := some ("1 Main St".toList)
    internationalPhoneNumber := none
    websiteUri := none
    rating := none
    userRatingCount := none
    types := []
    distance := none }

/-- The same hospital with the name's case changed. -/
def facCityLower : Facility := { facCity with displayName := some ("city hospital".toList) }

/-- A duplicate of `facCity` differing only in a field outside the dedupe key. -/
def facCityDup : Facility := { facCity with internationalPhoneNumber := some ("01-111".toList) }

/-- A hospital 5.0 miles away. -/
def facFive : Facility := { facCity with formattedAddress := some ("5 Oak Ave".toList), distance := some ⟨8, 5⟩ }

/-- A hospital 1.0 mile away. -/
def facOne : Facility := { facCity with formattedAddress := some ("1 Elm St".toList), distance := some ⟨2, 1⟩ }

/-- A hospital 10.0 miles away. -/
def facTen : Facility := { facCity with formattedAddress := some ("10 Pine Rd".toList), distance := some ⟨16, 10⟩ }

/-- A hospital 40.0 miles away, outside the default radius. -/
def facFar : Facility := { facCity with formattedAddress := some ("40 Far Way".toList), distance := some ⟨64, 40⟩ }

/-- A veterinary clinic candidate. -/
def facVet : Facility := { facCity with displayName := some ("Happy Veterinary Hospital".toList) }

/-- The eye hospital named by the specification's override property. -/
def facNepalEye : Facility := { facCity with displayName := some ("Nepal Eye Hospital".toList) }

/-! Claim theorems. -/

/-- C10: for every candidate list and need-type set, the relevance filter
returns an order-preserving subsequence of its input — kept candidates are
the identical input records, in input order, and nothing new is introduced;
all of which is exactly a `Sublist`. -/
theorem C10_filter_subsequence (facilities : List Facility) (needTypes : List NeedType) :
    (filterFacilitiesByServiceType facilities needTypes).Sublist facilities :=
  List.filter_sublist facilities

/-- C6: a candidate whose lowercased name or joined category tags trigger the
veterinary/pet/animal exclusion — in particular any name containing
`veterinary` — is absent from the relevance filter's output for every
need-type combination; no later inclusion rule (including the major-medical
safety net) can resurrect it. -/
theorem C6_veterinary_exclusion (facilities : List Facility) (needTypes : List NeedType)
    (f : Facility)
    (hvet : (incl kwPet (facilityName f) || incl kwVeterinary (facilityName f) ||
        incl kwAnimal (facilityName f) || incl kwVeterinary (facilityTypesStr f) ||
        incl kwVetSpace (facilityName f)) = true) :
    f ∉ filterFacilitiesByServiceType facilities needTypes := by
  intro hmem
  have hkeep := (List.mem_filter.mp hmem).2
  rw [keepFacility, if_pos hvet] at hkeep
  exact Bool.false_ne_true hkeep

/-- Witness for C6 at a concrete veterinary candidate. -/
theorem C6_veterinary_exclusion_witness :
    facVet ∉ filterFacilitiesByServiceType [facVet, facCity] [NeedType.emergency] :=
  C6_veterinary_exclusion [facVet, facCity] [NeedType.emergency] facVet (by decide)

/-- C9: re-sorting an already distance-sorted list is a no-op — the
`/search/sort` operation with `sortBy = "distance"` is idempotent (and, being
a pure function of its input list, deterministic). -/
theorem C9_distance_sort_idempotent (facilities : List EnrichedFacility) :
    sortSearchResults sortKeyDistance (sortSearchResults sortKeyDistance facilities) =
      sortSearchResults sortKeyDistance facilities := by
  have htot : ∀ a b : EnrichedFacility,
      (distanceLeB a b = true) ∨ (distanceLeB b a = true) := by
    intro a b
    cases ha : a.distance with
    | none => simp [distanceLeB, ha]
    | some da =>
      cases hb : b.distance with
      | none => simp [distanceLeB, ha, hb]
      | some db =>
        rcases le_total da.miles db.miles with h | h
        · left; simp [distanceLeB, ha, hb, h]
        · right; simp [distanceLeB, ha, hb, h]
  unfold sortSearchResults
  rw [if_pos rfl, if_pos rfl]
  exact insertionSort_idem _ htot facilities

/-- C5: the haversine distance is symmetric in its two coordinate pairs for
either unit, and the distance from a point to itself is `0`. -/
theorem C5_haversine_symm_zero :
    (∀ lat1 lon1 lat2 lon2 : ℝ, ∀ u : DistUnit,
      calculateDistance lat1 lon1 lat2 lon2 u = calculateDistance lat2 lon2 lat1 lon1 u) ∧
    (∀ lat lon : ℝ, ∀ u : DistUnit, calculateDistance lat lon lat lon u = 0) := by
  constructor
  · intro lat1 lon1 lat2 lon2 u
    have h1 : toRadians (lat1 - lat2) = -toRadians (lat2 - lat1) := by
      unfold toRadians; ring
    have h2 : toRadians (lon1 - lon2) = -toRadians (lon2 - lon1) := by
      unfold toRadians; ring
    have hA : Real.sin (toRadians (lat1 - lat2) / 2) * Real.sin (toRadians (lat1 - lat2) / 2) +
        Real.cos (toRadians lat2) * Real.cos (toRadians lat1) *
        Real.sin (toRadians (lon1 - lon2) / 2) * Real.sin (toRadians (lon1 - lon2) / 2) =
        Real.sin (toRadians (lat2 - lat1) / 2) * Real.sin (toRadians (lat2 - lat1) / 2) +
        Real.cos (toRadians lat1) * Real.cos (toRadians lat2) *
        Real.sin (toRadians (lon2 - lon1) / 2) * Real.sin (toRadians (lon2 - lon1) / 2) := by
      rw [h1, h2, neg_div, Real.sin_neg, neg_div, Real.sin_neg]
      ring
    simp only [calculateDistance]
    rw [hA]
  · intro lat lon u
    have h0 : toRadians (lat - lat) = 0 := by unfold toRadians; ring
    have h0' : toRadians (lon - lon) = 0 := by unfold toRadians; ring
    have hA : Real.sin (toRadians (lat - lat) / 2) * Real.sin (toRadians (lat - lat) / 2) +
        Real.cos (toRadians lat) * Real.cos (toRadians lat) *
        Real.sin (toRadians (lon - lon) / 2) * Real.sin (toRadians (lon - lon) / 2) = 0 := by
      rw [h0, h0']
      norm_num [Real.sin_zero]
    have hat : jsAtan2 (Real.sqrt 0) (Real.sqrt (1 - 0)) = 0 := by
      unfold jsAtan2
      norm_num [Real.sqrt_zero, Real.sqrt_one, Real.arctan_zero]
    have hfloor : jsRound 0 = 0 := by
      unfold jsRound
      have : ⌊(0 : ℝ) + 1 / 2⌋ = 0 := by
        rw [Int.floor_eq_zero_iff]
        constructor <;> norm_num
      rw [this]
      norm_num
    simp only [calculateDistance]
    rw [hA, hat]
    rw [mul_zero, mul_zero, zero_mul, hfloor, zero_div]

/-- C2: after sorting, the radius cutoff removes every candidate whose known
distance exceeds the applicable radius (`maxDistance`: 31 miles by default,
50 when support-groups is requested), and retains every candidate without
distance data that reached this stage. -/
theorem C2_radius_cutoff (needTypes : List NeedType) (l : List Facility) (f : Facility) :
    (f ∈ finalResults needTypes l → ∀ d, f.distance = some d → d.miles ≤ maxDistance needTypes) ∧
    (f ∈ l → f.distance = none → f ∈ finalResults needTypes l) := by
  constructor
  · intro hmem d hd
    have hkeep := (List.mem_filter.mp hmem).2
    rw [hd] at hkeep
    simp only at hkeep
    by_cases hz : d.miles = 0
    · rw [hz]
      unfold maxDistance
      split <;> norm_num
    · rw [if_neg hz] at hkeep
      exact of_decide_eq_true hkeep
  · intro hmem hnone
    have hsorted : f ∈ sortFacilities needTypes l :=
      (List.perm_insertionSort _ l).mem_iff.mpr hmem
    refine List.mem_filter.mpr ⟨hsorted, ?_⟩
    rw [hnone]

/-- Witness for C2: the candidate without distance data survives to the final
output, and a retained 10-mile candidate is certified within the radius. -/
theorem C2_radius_cutoff_witness :
    facCity ∈ finalResults [NeedType.emergency] [facTen, facCity] ∧
    (DistInfo.mk 16 10).miles ≤ maxDistance [NeedType.emergency] :=
  ⟨(C2_radius_cutoff [NeedType.emergency] [facTen, facCity] facCity).2 (by decide) rfl,
   (C2_radius_cutoff [NeedType.emergency] [facTen, facCity] facTen).1 (by decide) ⟨16, 10⟩ rfl⟩

/-- Names containing `urgent` also contain `ent`, so the comparator's
explicit `urgent` exclusion on the hospital bonus is subsumed by its `ent`
exclusion. -/
theorem incl_ent_of_incl_urgent {name : JStr} (h : incl kwUrgent name = true) :
    incl kwEnt name = true :=
  incl_of_incl_incl (by decide) h

/-- The comparator's relation is total: for any two candidates at least one
of the two comparator calls is nonpositive. -/
theorem facilityLeB_total (needTypes : List NeedType) (a b : Facility) :
    facilityLeB needTypes a b = true ∨ facilityLeB needTypes b a = true := by
  unfold facilityLeB
  by_cases h : needTypes.contains NeedType.emergency = true ∧
      emergencyScore (facilityName a) ≠ emergencyScore (facilityName b)
  · have h' : needTypes.contains NeedType.emergency = true ∧
        emergencyScore (facilityName b) ≠ emergencyScore (facilityName a) :=
      ⟨h.1, h.2.symm⟩
    rw [if_pos h, if_pos h']
    rcases le_total (emergencyScore (facilityName b)) (emergencyScore (facilityName a)) with hle | hle
    · left; exact decide_eq_true hle
    · right; exact decide_eq_true hle
  · have h' : ¬(needTypes.contains NeedType.emergency = true ∧
        emergencyScore (facilityName b) ≠ emergencyScore (facilityName a)) := by
      intro hc; exact h ⟨hc.1, hc.2.symm⟩
    rw [if_neg h, if_neg h']
    cases ha : a.distance with
    | none => left; rfl
    | some da =>
      cases hb : b.distance with
      | none => left; rfl
      | some db =>
        rcases le_total da.miles db.miles with hle | hle
        · left; exact decide_eq_true hle
        · right; exact decide_eq_true hle

/-- Under the emergency need type the comparator relation implies a weakly
descending emergency score. -/
theorem score_ge_of_facilityLeB {needTypes : List NeedType} {a b : Facility}
    (hem : needTypes.contains NeedType.emergency = true)
    (h : facilityLeB needTypes a b = true) :
    emergencyScore (facilityName b) ≤ emergencyScore (facilityName a) := by
  unfold facilityLeB at h
  by_cases hc : needTypes.contains NeedType.emergency = true ∧
      emergencyScore (facilityName a) ≠ emergencyScore (facilityName b)
  · rw [if_pos hc] at h
    exact of_decide_eq_true h
  · have : emergencyScore (facilityName a) = emergencyScore (facilityName b) := by
      by_contra hne
      exact hc ⟨hem, hne⟩
    exact le_of_eq this.symm

/-- C3: the emergency composite score computed by the comparator agrees with
the specification's contribution table on every name (the comparator's extra
`urgent` guard is redundant because `urgent` contains `ent`), and under the
emergency need type the final ranked output is weakly descending in that
score. -/
theorem C3_emergency_scoring :
    (∀ name : JStr, emergencyScore name = specEmergencyScore name) ∧
    (∀ (needTypes : List NeedType) (l : List Facility),
      needTypes.contains NeedType.emergency = true →
      (finalResults needTypes l).Pairwise
        (fun a b => emergencyScore (facilityName b) ≤ emergencyScore (facilityName a))) := by
  constructor
  · intro name
    have hcond : ((incl kwHospital name || incl kwMedicalCenter name) && !incl kwUrgent name &&
        !incl kwEye name && !incl kwDental name && !incl kwSkin name && !incl kwEnt name) =
        ((incl kwHospital name || incl kwMedicalCenter name) &&
          !(incl kwEye name || incl kwDental name || incl kwSkin name || incl kwEnt name)) := by
      cases hu : incl kwUrgent name with
      | true =>
        rw [incl_ent_of_incl_urgent hu]
        simp
      | false =>
        cases hent : incl kwEnt name with
        | true => simp [hent]
        | false => simp [hent, Bool.and_assoc]
    unfold emergencyScore specEmergencyScore
    rw [hcond]
    ring
  · intro needTypes l hem
    have hchain := chain_insertionSort (fun a b => facilityLeB needTypes a b = true)
      (facilityLeB_total needTypes) l
    have hpair : (List.insertionSort (fun a b => facilityLeB needTypes a b = true) l).Pairwise
        (fun a b => emergencyScore (facilityName b) ≤ emergencyScore (facilityName a)) :=
      pairwise_of_chain (fun a b => facilityLeB needTypes a b = true)
        (fun a b h => score_ge_of_facilityLeB hem h)
        (fun _ _ _ hab hbc => le_trans hbc hab) _ hchain
    unfold finalResults radiusCutoff sortFacilities
    exact List.Pairwise.sublist (List.filter_sublist _) hpair

/-- Witness for C3 on a concrete emergency request. -/
theorem C3_emergency_scoring_witness :
    (finalResults [NeedType.emergency] [facFive, facOne, facCity]).Pairwise
      (fun a b => emergencyScore (facilityName b) ≤ emergencyScore (facilityName a)) :=
  C3_emergency_scoring.2 [NeedType.emergency] [facFive, facOne, facCity] rfl

/-- C4 counterexample: with equal scores, a candidate without distance data
compares equal to everything (the comparator returns `0`), so the stable sort
leaves it in front of a distance-bearing candidate instead of moving it after
all of them; moreover a missing-distance candidate sitting between two
distance-bearing ones lets their known distances stay in descending order. -/
theorem C4_sort_counterexample :
    (sortFacilities [NeedType.emergency] [facCity, facFive] = [facCity, facFive] ∧
      facCity.distance = none ∧ facFive.distance = some ⟨8, 5⟩ ∧
      emergencyScore (facilityName facCity) = emergencyScore (facilityName facFive)) ∧
    (sortFacilities [NeedType.emergency] [facFive, facCity, facOne] =
        [facFive, facCity, facOne] ∧
      facFive.distance = some ⟨8, 5⟩ ∧ facOne.distance = some ⟨2, 1⟩ ∧
      emergencyScore (facilityName facFive) = emergencyScore (facilityName facOne)) := by
  decide

/-- C4 as amended: adjacent candidates in the sorted output descend in score,
and an adjacent equal-score pair with both distances known ascends in
distance; a pair involving a missing distance is unconstrained because the
comparator treats it as a tie, and a list in which every pair ties is
returned unchanged (stability of the sort). -/
theorem C4_sort_amended (needTypes : List NeedType) (l : List Facility)
    (hem : needTypes.contains NeedType.emergency = true) :
    ((sortFacilities needTypes l).Chain' (fun a b =>
      emergencyScore (facilityName b) < emergencyScore (facilityName a) ∨
      (emergencyScore (facilityName a) = emergencyScore (facilityName b) ∧
        ∀ da db, a.distance = some da → b.distance = some db → da.miles ≤ db.miles))) ∧
    ((∀ a ∈ l, ∀ b ∈ l, facilityLeB needTypes a b = true) →
      sortFacilities needTypes l = l) := by
  constructor
  · have hchain := chain_insertionSort (fun a b => facilityLeB needTypes a b = true)
      (facilityLeB_total needTypes) l
    refine List.Chain'.imp ?_ hchain
    intro a b h
    by_cases heq : emergencyScore (facilityName a) = emergencyScore (facilityName b)
    · refine Or.inr ⟨heq, ?_⟩
      intro da db hda hdb
      unfold facilityLeB at h
      rw [if_neg (fun hc => hc.2 heq)] at h
      rw [hda, hdb] at h
      simp only at h
      exact of_decide_eq_true h
    · left
      unfold facilityLeB at h
      rw [if_pos ⟨hem, heq⟩] at h
      exact lt_of_le_of_ne (of_decide_eq_true h) (fun he => heq he.symm)
  · intro hall
    exact insertionSort_eq_of_chain _ l
      (List.Pairwise.chain' (List.pairwise_of_forall_mem_list hall))

/-- Witness for C4 on a concrete all-ties list. -/
theorem C4_sort_amended_witness :
    ((sortFacilities [NeedType.emergency] [facCity, facCityDup]).Chain' (fun a b =>
      emergencyScore (facilityName b) < emergencyScore (facilityName a) ∨
      (emergencyScore (facilityName a) = emergencyScore (facilityName b) ∧
        ∀ da db, a.distance = some da → b.distance = some db → da.miles ≤ db.miles))) ∧
    sortFacilities [NeedType.emergency] [facCity, facCityDup] = [facCity, facCityDup] :=
  ⟨(C4_sort_amended [NeedType.emergency] [facCity, facCityDup] rfl).1,
   (C4_sort_amended [NeedType.emergency] [facCity, facCityDup] rfl).2 (by decide)⟩

/-! Structural facts about the dedupe loop, generalised over the running
`seenPlaces` set. -/

theorem removeDuplicatesAux_sublist (seen : List JStr) (l : List Facility) :
    (removeDuplicatesAux seen l).Sublist l := by
  induction l generalizing seen with
  | nil => exact List.Sublist.refl []
  | cons f fs ih =>
    rw [removeDuplicatesAux]
    by_cases hin : placeKey f ∈ seen
    · rw [if_pos hin]
      exact (ih seen).cons f
    · rw [if_neg hin]
      exact (ih (placeKey f :: seen)).cons₂ f

theorem removeDuplicatesAux_not_seen (seen : List JStr) (l : List Facility) :
    ∀ g ∈ removeDuplicatesAux seen l, placeKey g ∉ seen := by
  induction l generalizing seen with
  | nil => intro g hg; cases hg
  | cons f fs ih =>
    intro g hg
    rw [removeDuplicatesAux] at hg
    by_cases hin : placeKey f ∈ seen
    · rw [if_pos hin] at hg
      exact ih seen g hg
    · rw [if_neg hin] at hg
      rcases List.mem_cons.mp hg with rfl | hg'
      · exact hin
      · intro hmem
        exact ih (placeKey f :: seen) g hg' (List.mem_cons_of_mem _ hmem)

theorem removeDuplicatesAux_keys_nodup (seen : List JStr) (l : List Facility) :
    ((removeDuplicatesAux seen l).map placeKey).Nodup := by
  induction l generalizing seen with
  | nil => exact List.nodup_nil
  | cons f fs ih =>
    rw [removeDuplicatesAux]
    by_cases hin : placeKey f ∈ seen
    · rw [if_pos hin]
      exact ih seen
    · rw [if_neg hin]
      rw [List.map_cons]
      refine List.nodup_cons.mpr ⟨?_, ih (placeKey f :: seen)⟩
      intro hmem
      rcases List.mem_map.mp hmem with ⟨g, hg, hkey⟩
      exact removeDuplicatesAux_not_seen _ _ g hg (hkey ▸ List.mem_cons_self _ _)

theorem removeDuplicatesAux_covers (seen : List JStr) (l : List Facility) :
    ∀ f ∈ l, placeKey f ∈ seen ∨
      ∃ g ∈ removeDuplicatesAux seen l, placeKey g = placeKey f := by
  induction l generalizing seen with
  | nil => intro f hf; cases hf
  | cons h hs ih =>
    intro f hf
    rw [removeDuplicatesAux]
    by_cases hin : placeKey h ∈ seen
    · rw [if_pos hin]
      rcases List.mem_cons.mp hf with rfl | hf'
      · exact Or.inl hin
      · exact ih seen f hf'
    · rw [if_neg hin]
      rcases List.mem_cons.mp hf with heq | hf'
      · exact Or.inr ⟨h, List.mem_cons_self _ _, by rw [heq]⟩
      · rcases ih (placeKey h :: seen) f hf' with hseen | ⟨g, hg, hkey⟩
        · rcases List.mem_cons.mp hseen with heq | hseen'
          · exact Or.inr ⟨h, List.mem_cons_self _ _, heq.symm⟩
          · exact Or.inl hseen'
        · exact Or.inr ⟨g, List.mem_cons_of_mem _ hg, hkey⟩

theorem removeDuplicatesAux_first (seen : List JStr) (l : List Facility) :
    ∀ g ∈ removeDuplicatesAux seen l,
      l.find? (fun f => placeKey f == placeKey g) = some g := by
  induction l generalizing seen with
  | nil => intro g hg; cases hg
  | cons h hs ih =>
    intro g hg
    rw [removeDuplicatesAux] at hg
    by_cases hin : placeKey h ∈ seen
    · rw [if_pos hin] at hg
      have hne : placeKey h ≠ placeKey g := by
        intro he
        exact removeDuplicatesAux_not_seen seen hs g hg (he ▸ hin)
      rw [List.find?_cons_of_neg _ (by simpa using hne)]
      exact ih seen g hg
    · rw [if_neg hin] at hg
      rcases List.mem_cons.mp hg with rfl | hg'
      · rw [List.find?_cons_of_pos _ (by simp)]
      · have hne : placeKey h ≠ placeKey g := by
          intro he
          exact removeDuplicatesAux_not_seen _ hs g hg'
            (he ▸ List.mem_cons_self _ _)
        rw [List.find?_cons_of_neg _ (by simpa using hne)]
        exact ih (placeKey h :: seen) g hg'

/-- C1 counterexample: two candidates whose case-normalized `(name, address)`
pairs are identical but whose raw names differ in case are NOT collapsed —
the dedupe key is the raw, case-sensitive string `name + "-" + address`. -/
theorem C1_dedupe_counterexample :
    jsLower (facCity.displayName.getD []) = jsLower (facCityLower.displayName.getD []) ∧
    jsLower (facCity.formattedAddress.getD []) = jsLower (facCityLower.formattedAddress.getD []) ∧
    removeDuplicates [facCity, facCityLower] = [facCity, facCityLower] := by
  decide

/-- C1 as amended: deduplication is keyed on the exact, case-sensitive
concatenation `name + "-" + address` (missing fields rendering as
`undefined`): the output is a subsequence of the input whose keys are
pairwise distinct, every input key is represented, and each kept record is
the first occurrence of its key in the input. -/
theorem C1_dedupe_amended (l : List Facility) :
    (removeDuplicates l).Sublist l ∧
    ((removeDuplicates l).map placeKey).Nodup ∧
    (∀ f ∈ l, ∃ g ∈ removeDuplicates l, placeKey g = placeKey f) ∧
    (∀ g ∈ removeDuplicates l, l.find? (fun f => placeKey f == placeKey g) = some g) := by
  refine ⟨removeDuplicatesAux_sublist [] l, removeDuplicatesAux_keys_nodup [] l, ?_, ?_⟩
  · intro f hf
    rcases removeDuplicatesAux_covers [] l f hf with hseen | hcov
    · cases hseen
    · exact hcov
  · exact removeDuplicatesAux_first [] l

/-- Witness for C1: on a list with an exact duplicate, the kept record is the
first occurrence of its key. -/
theorem C1_dedupe_amended_witness :
    [facCity, facCityDup].find? (fun f => placeKey f == placeKey facCity) = some facCity :=
  (C1_dedupe_amended [facCity, facCityDup]).2.2.2 facCity (by decide)

/-- C7: when emergency is requested, the service-specific manual override
fires before the generative result is even consulted, so a candidate whose
lowercased name contains `eye`, `dental`, `skin` or `ent` — such as
`Nepal Eye Hospital` — is enriched with `medical_relevance = Low` for every
possible generative outcome (reachable, unreachable or malformed alike). -/
theorem C7_specialty_low_override (needTypes : List NeedType) (languageContext : JStr)
    (ai : Option AIAnalysis) (index : ℕ) (facility : Facility)
    (hem : needTypes.contains NeedType.emergency = true)
    (hname : (incl kwEye (facilityName facility) || incl kwDental (facilityName facility) ||
        incl kwSkin (facilityName facility) || incl kwEnt (facilityName facility)) = true) :
    (enrichOne needTypes languageContext ai index facility).medical_relevance = txtLow := by
  have hover : emergencyOverride needTypes (facilityName facility) = true := by
    unfold emergencyOverride
    rw [hem, Bool.true_and]
    simp only [Bool.or_eq_true] at hname ⊢
    tauto
  simp [enrichOne, applyAIInsights, hover]

/-- Witness for C7 at `Nepal Eye Hospital`, both with a generative response
claiming High relevance and with no generative response at all. -/
theorem C7_specialty_low_override_witness :
    (enrichOne [NeedType.emergency] ctxEn
        (some { facilities := some [{ medical_relevance := txtHigh,
                                      language_support := txtConfirmed,
                                      language_note := [],
                                      service_match := txtExcellent,
                                      specialty_note := [],
                                      facility_type := ftHospital }],
                patterns := none })
        0 facNepalEye).medical_relevance = txtLow ∧
    (enrichOne [NeedType.emergency] ctxEn none 0 facNepalEye).medical_relevance = txtLow :=
  ⟨C7_specialty_low_override _ _ _ _ _ rfl (by decide),
   C7_specialty_low_override _ _ _ _ _ rfl (by decide)⟩

def txtLikely : JStr := "Likely".toList

/-- A generative response carrying only a patterns section: no per-facility
entries at all. -/
def aiPatternsOnly : AIAnalysis :=
  { facilities := some []
    patterns := some { hospital_language_support := some txtLikely
                       urgent_care_language_support := none
                       clinic_language_support := none
                       general_language_note := none } }

/-- C8 counterexample: with a parsed generative response that has no
per-facility entry for the candidate, the attached record takes its
`language_support` from the generative `patterns` section while its
`medical_relevance` comes from the deterministic rules — neither entirely
generative (no per-facility result exists) nor entirely the fallback
(which would say `Confirmed`, the English default): a partial merge. -/
theorem C8_provenance_counterexample :
    aiFacilityEntry (some aiPatternsOnly) 0 = none ∧
    applyAIInsights [NeedType.emergency] ctxEn (some aiPatternsOnly) facCity 0 ≠
      applyAIInsights [NeedType.emergency] ctxEn none facCity 0 ∧
    (applyAIInsights [NeedType.emergency] ctxEn (some aiPatternsOnly) facCity 0).language_support =
      txtLikely ∧
    (applyAIInsights [NeedType.emergency] ctxEn none facCity 0).language_support = txtConfirmed ∧
    (applyAIInsights [NeedType.emergency] ctxEn (some aiPatternsOnly) facCity 0).medical_relevance =
      (applyAIInsights [NeedType.emergency] ctxEn none facCity 0).medical_relevance := by
  decide

/-- C8 as amended: a facility with a per-facility generative entry (and no
mandatory override) takes that entry wholesale, and when the generative pass
produced nothing usable for the facility AND no patterns section, its record
is exactly the no-analysis fallback; but (per the counterexample) a parsed
response's `patterns` section can overlay language fields onto otherwise
rule-based records. -/
theorem C8_provenance_amended (needTypes : List NeedType) (languageContext : JStr)
    (ai : Option AIAnalysis) (facility : Facility) (index : ℕ) :
    (∀ entry, aiFacilityEntry ai index = some entry →
      emergencyOverride needTypes (facilityName facility) = false →
      rehabOverride needTypes (facilityName facility) = false →
      supportOverride needTypes (facilityName facility) = false →
      applyAIInsights needTypes languageContext ai facility index = entry) ∧
    (aiFacilityEntry ai index = none → aiPatternsOf ai = none →
      applyAIInsights needTypes languageContext ai facility index =
        applyAIInsights needTypes languageContext none facility index) := by
  constructor
  · intro entry hentry h1 h2 h3
    simp [applyAIInsights, h1, h2, h3, hentry]
  · intro hnone hpat
    simp only [applyAIInsights]
    rw [hnone, hpat]
    rfl

/-- Witness for C8: a direct per-facility generative entry is attached
wholesale, and a facility beyond the generative coverage of a patterns-free
response receives exactly the no-analysis fallback. -/
theorem C8_provenance_amended_witness :
    applyAIInsights [NeedType.emergency] ctxEn
        (some { facilities := some [{ medical_relevance := txtHigh,
                                      language_support := txtConfirmed,
                                      language_note := [],
                                      service_match := txtExcellent,
                                      specialty_note := [],
                                      facility_type := ftHospital }],
                patterns := none })
        facCity 0 =
      { medical_relevance := txtHigh, language_support := txtConfirmed, language_note := [],
        service_match := txtExcellent, specialty_note := [], facility_type := ftHospital } ∧
    applyAIInsights [NeedType.emergency] ctxEn
        (some { facilities := some [{ medical_relevance := txtHigh,
                                      language_support := txtConfirmed,
                                      language_note := [],
                                      service_match := txtExcellent,
                                      specialty_note := [],
                                      facility_type := ftHospital }],
                patterns := none })
        facCity 1 =
      applyAIInsights [NeedType.emergency] ctxEn none facCity 1 :=
  ⟨(C8_provenance_amended [NeedType.emergency] ctxEn _ facCity 0).1 _ rfl
      (by decide) (by decide) (by decide),
   (C8_provenance_amended [NeedType.emergency] ctxEn _ facCity 1).2 rfl rfl⟩

end CereFlow
